import Mathlib

/-!
Verification of the llm-council frontend client.

The development shallowly embeds the code of the repository:
* the streaming consumer `sendMessageStream` of the API client
  (src/unnamed/part_001, lines 165-223; the older variant in
  src/unnamed/part_000 shares the same chunk handling),
* the React application state transitions of src/frontend/src/App.jsx
  (sendMessage, selectConversation, createNewConversation, the stage
  callbacks, and the PDF attachment helpers),
* the auth flows of src/frontend/src/auth.jsx together with the api.login
  and api.register wrappers of src/unnamed/part_001,
* the message normalizer getAssistantResponseText of src/unnamed/part_001.

JavaScript values are modelled by the inductive `JVal`; `undefined` is
merged with `null` (the two are interchangeable in every code path that
the claims touch).  Strings are processed as lists of characters so that
every function is structurally recursive and reduces inside the kernel.
-/


/-- Model of a JavaScript/JSON value.  `undefined` is identified with
`null`; numbers are restricted to integers because no payload in any claim
carries a fractional number. -/
inductive JVal where
  | null : JVal
  | bool : Bool → JVal
  | num : Int → JVal
  | str : String → JVal
  | arr : List JVal → JVal
  | obj : List (String × JVal) → JVal

/-- JavaScript truthiness: null/undefined, false, 0 and the empty string
are falsy; every array and object is truthy. -/
def truthy : JVal → Bool
  | .null => false
  | .bool b => b
  | .num n => n != 0
  | .str s => !s.data.isEmpty
  | .arr _ => true
  | .obj _ => true

/-- Property lookup on an object: the LAST binding wins, matching the
semantics of JSON.parse for duplicate keys and of object assignment. -/
def lookupLast : List (String × JVal) → String → Option JVal
  | [], _ => none
  | (k', v) :: rest, k =>
    match lookupLast rest k with
    | some r => some r
    | none => if k' = k then some v else none

/-- `v.k` for an object; `none` (undefined) on every non-object, matching
property access on arrays, strings and primitives for the keys the code
uses. -/
def getField : JVal → String → Option JVal
  | .obj fs, k => lookupLast fs k
  | _, _ => none

/-- `v.k`, with undefined collapsed to null (the callbacks receive the
field value verbatim). -/
def jfield (v : JVal) (k : String) : JVal :=
  (getField v k).getD .null

/-- `v.k1?.k2`, the optional chain used for `parsed.data?.title`. -/
def jchain (v : JVal) (k1 k2 : String) : JVal :=
  ((getField v k1).bind (fun w => getField w k2)).getD .null

/-- JavaScript String() conversion on the values the code converts
(Error message construction).  The join of a non-empty array is
approximated by the empty string; no claim exercises a non-primitive
message. -/
def jsToString : JVal → String
  | .str s => s
  | .null => "null"
  | .bool b => cond b "true" "false"
  | .num n => toString n
  | .arr _ => ""
  | .obj _ => "[object Object]"

/-! ### A small JSON parser, modelling JSON.parse

The parser is written with an explicit `Nat.rec` over a fuel bound so that
it is structurally recursive and evaluates by kernel reduction.  It covers
the JSON fragment the protocol uses: objects, arrays, strings with the
common escapes, integers, booleans and null.  (Fractional numbers and
\u escapes are outside every claim.) -/

def isWsChar (c : Char) : Bool :=
  c = ' ' || c = '\n' || c = '\t' || c = '\r'

def skipWs (cs : List Char) : List Char := cs.dropWhile isWsChar

/-- The escape table of JSON strings: source character and decoded
character of each two-character escape (backspace and form feed by code
point; the \u form is outside every claim). -/
def escPairs : List (Char × Char) :=
  [('"', '"'), ('\\', '\\'), ('/', '/'), ('n', '\n'),
   ('t', '\t'), ('r', '\r'), ('b', Char.ofNat 8), ('f', Char.ofNat 12)]

def escChar (e : Char) : Option Char :=
  (escPairs.find? (fun kv => kv.1 = e)).map (fun kv => kv.2)

/-- Body of a JSON string after the opening quote; returns the decoded
characters and the rest of the input. -/
def parseStringBody : List Char → List Char → Option (List Char × List Char)
  | [], _ => none
  | '"' :: rest, acc => some (acc.reverse, rest)
  | '\\' :: e :: rest, acc =>
    match escChar e with
    | some c => parseStringBody rest (c :: acc)
    | none => none
  | '\\' :: [], _ => none
  | c :: rest, acc => parseStringBody rest (c :: acc)

def digitVal (c : Char) : Option Nat :=
  if '0' ≤ c ∧ c ≤ '9' then some (c.toNat - '0'.toNat) else none

def parseDigits : List Char → Nat → Option Nat → Option (Nat × List Char)
  | [], _, acc => acc.map (fun a => (a, []))
  | c :: rest, a, acc =>
    match digitVal c with
    | some d => parseDigits rest (a * 10 + d) (some (a * 10 + d))
    | none => acc.map (fun x => (x, c :: rest))

/-- An integer JSON number (optional leading minus, then digits). -/
def parseIntTok (cs : List Char) : Option (Int × List Char) :=
  match cs with
  | '-' :: rest =>
    (parseDigits rest 0 none).map (fun (n, r) => (-(n : Int), r))
  | _ => (parseDigits cs 0 none).map (fun (n, r) => ((n : Int), r))

/-- The three mutually recursive parsing functions of one fuel level:
a value parser, an array-element parser and an object-member parser. -/
structure PFuns where
  val : List Char → Option (JVal × List Char)
  elems : List Char → Option (List JVal × List Char)
  membs : List Char → Option (List (String × JVal) × List Char)

def pFail : PFuns :=
  ⟨fun _ => none, fun _ => none, fun _ => none⟩

/-- One fuel level of the parser, built from the previous level. -/
def pStep (p : PFuns) : PFuns where
  val cs :=
    match skipWs cs with
    | 'n' :: 'u' :: 'l' :: 'l' :: rest => some (.null, rest)
    | 't' :: 'r' :: 'u' :: 'e' :: rest => some (.bool true, rest)
    | 'f' :: 'a' :: 'l' :: 's' :: 'e' :: rest => some (.bool false, rest)
    | '"' :: rest =>
      (parseStringBody rest []).map (fun (s, r) => (.str ⟨s⟩, r))
    | '[' :: rest =>
      match skipWs rest with
      | ']' :: r2 => some (.arr [], r2)
      | r2 => (p.elems r2).map (fun (xs, r) => (.arr xs, r))
    | '\x7b' :: rest =>
      match skipWs rest with
      | '\x7d' :: r2 => some (.obj [], r2)
      | r2 => (p.membs r2).map (fun (fs, r) => (.obj fs, r))
    | cs' => (parseIntTok cs').map (fun (n, r) => (.num n, r))
  elems cs :=
    match p.val cs with
    | none => none
    | some (v, rest) =>
      match skipWs rest with
      | ',' :: r2 => (p.elems r2).map (fun (xs, r) => (v :: xs, r))
      | ']' :: r2 => some ([v], r2)
      | _ => none
  membs cs :=
    match skipWs cs with
    | '"' :: rest =>
      match parseStringBody rest [] with
      | none => none
      | some (k, r1) =>
        match skipWs r1 with
        | ':' :: r2 =>
          match p.val r2 with
          | none => none
          | some (v, r3) =>
            match skipWs r3 with
            | ',' :: r4 => (p.membs r4).map (fun (fs, r) => ((⟨k⟩, v) :: fs, r))
            | '\x7d' :: r4 => some ([(⟨k⟩, v)], r4)
            | _ => none
        | _ => none
    | _ => none

def pAt (fuel : Nat) : PFuns :=
  Nat.rec pFail (fun _ ih => pStep ih) fuel

/-- JSON.parse on a character list: parse one value and require that only
whitespace remains (JSON.parse rejects trailing input). -/
def jsonParseChars (cs : List Char) : Option JVal :=
  match (pAt (2 * cs.length + 4)).val cs with
  | some (v, rest) => if (skipWs rest).isEmpty then some v else none
  | none => none

def jsonParse (s : String) : Option JVal := jsonParseChars s.data

/-! ### The streaming consumer, sendMessageStream

src/unnamed/part_001 lines 178-223.  The body of the HTTP response is
delivered as a list of chunks.  Each chunk is decoded and split on
newlines; every piece is inspected for the "data: " marker; the payload
after the marker is compared with the sentinel and otherwise parsed as
JSON inside a try/catch.  The code keeps NO buffer between reads: the
trailing fragment of one chunk and the leading fragment of the next are
handled as two separate (broken) lines.

Callback invocations are recorded as an ordered list of `StreamEvent`;
exceptions that escape the loop are the `err` outcome. -/

/-- One dispatched callback invocation, in order: onStage1, onStage2,
onStage3, onTitleUpdate. -/
inductive StreamEvent where
  | stage1 : JVal → StreamEvent
  | stage2 : JVal → JVal → StreamEvent
  | stage3 : JVal → StreamEvent
  | titleUpdate : JVal → StreamEvent

/-- How sendMessageStream finishes: a normal return, or an exception
carrying a message propagated to the caller. -/
inductive StreamOutcome where
  | ok : StreamOutcome
  | err : String → StreamOutcome

/-- The split of a chunk on the newline character, as chunk.split does. -/
def splitOnNl : List Char → List (List Char)
  | [] => [[]]
  | c :: rest =>
    if c = '\n' then [] :: splitOnNl rest
    else
      match splitOnNl rest with
      | h :: t => (c :: h) :: t
      | [] => [[c]]

/-- Whether the needle is an initial segment of the haystack. -/
def isPrefixChars (ns hay : List Char) : Bool :=
  hay.take ns.length == ns

/-- The marker test of the line (startsWith) followed by slicing off the
six marker characters. -/
def dataOf (l : List Char) : Option (List Char) :=
  if isPrefixChars "data: ".data l then some (l.drop 6) else none

/-- needle-in-haystack test, modelling String.prototype.includes. -/
def containsSub (needle : List Char) : List Char → Bool
  | [] => needle.isEmpty
  | c :: rest => isPrefixChars needle (c :: rest) || containsSub needle rest

/-- The message of the SyntaxError thrown by JSON.parse.  In every major
engine (V8, SpiderMonkey, JavaScriptCore) this message contains the
substring "JSON", which the catch clause of the code relies on. -/
def jsonSyntaxErrorMsg : String := "Unexpected token: not valid JSON"

/-- `new Error(parsed.message || 'Unknown error').message`. -/
def errMsgOf (p : JVal) : String :=
  match getField p "message" with
  | some v => if truthy v then jsToString v else "Unknown error"
  | none => "Unknown error"

/-- Result of the try block for one payload. -/
inductive TryResult where
  | events : List StreamEvent → TryResult
  | complete : TryResult
  | thrown : String → TryResult

/-- The value switched on: `parsed.type` when it is a string (a non-string
discriminator falls into the default branch of the switch). -/
def typeTag (p : JVal) : Option String :=
  match getField p "type" with
  | some (.str t) => some t
  | _ => none

/-- The try block of part_001 lines 193-213 for one payload. -/
def tryLine (d : List Char) : TryResult :=
  match jsonParseChars d with
  | none => .thrown jsonSyntaxErrorMsg
  | some parsed =>
    match typeTag parsed with
    | some "stage1_complete" => .events [.stage1 (jfield parsed "data")]
    | some "stage2_complete" =>
      .events [.stage2 (jfield parsed "data") (jfield parsed "metadata")]
    | some "stage3_complete" => .events [.stage3 (jfield parsed "data")]
    | some "title_complete" => .events [.titleUpdate (jchain parsed "data" "title")]
    | some "complete" => .complete
    | some "error" => .thrown (errMsgOf parsed)
    | _ => .events []

/-- The catch clause, lines 214-219: rethrow exactly when the message is
non-empty and does not contain "JSON"; otherwise log and continue. -/
def rethrows (m : String) : Bool :=
  !m.data.isEmpty && !containsSub "JSON".data m.data

/-- Effect of one line of the split chunk. -/
inductive LineStep where
  | events : List StreamEvent → LineStep
  | done : LineStep
  | fail : String → LineStep

/-- Lines 188-221 for a single line: lines without the marker are skipped,
the sentinel returns, then the try/catch around parse-and-dispatch. -/
def stepOfLine (l : List Char) : LineStep :=
  match dataOf l with
  | none => .events []
  | some d =>
    if d = "[DONE]".data then .done
    else
      match tryLine d with
      | .events es => .events es
      | .complete => .done
      | .thrown m => if rethrows m then .fail m else .events []

/-- Process a list of lines in order with early termination; the `none`
outcome means the loop ran off the end (processing continues with the
next chunk). -/
def runLines : List (List Char) → List StreamEvent × Option StreamOutcome
  | [] => ([], none)
  | l :: rest =>
    match stepOfLine l with
    | .events es => (es ++ (runLines rest).1, (runLines rest).2)
    | .done => ([], some .ok)
    | .fail m => ([], some (.err m))

/-- The whole read loop of sendMessageStream on the chunked response body:
each chunk is split on newlines and its lines are processed; a return or
an escaping exception stops the loop, and end-of-stream is a normal
return. -/
def consumeChunks : List String → List StreamEvent × StreamOutcome
  | [] => ([], .ok)
  | c :: rest =>
    match (runLines (splitOnNl c.data)).2 with
    | some o => ((runLines (splitOnNl c.data)).1, o)
    | none =>
      ((runLines (splitOnNl c.data)).1 ++ (consumeChunks rest).1,
       (consumeChunks rest).2)

/-- All lines of all chunks, in order. -/
def allLines : List String → List (List Char)
  | [] => []
  | c :: rest => splitOnNl c.data ++ allLines rest

/-! ### Claim C1: chunk-boundary invariance -/

/-- A complete, valid stage-1 frame, terminated by its newline. -/
def c1WholeFrame : String :=
  "data: \x7b\"type\":\"stage1_complete\",\"data\":[\x7b\"model\":\"m1\",\"response\":\"hi\"\x7d]\x7d\n"

/-- The same bytes, cut mid-frame: the first read ends inside the JSON
payload. -/
def c1FirstChunk : String := "data: \x7b\"type\":\"stage1_co"

/-- The remainder of the frame delivered by the second read. -/
def c1SecondChunk : String :=
  "mplete\",\"data\":[\x7b\"model\":\"m1\",\"response\":\"hi\"\x7d]\x7d\n"

/-! ### The application state of App.jsx

src/frontend/src/App.jsx (and the later revision embedded at the end of
src/unnamed/part_001, which shares all the transitions the claims cite).
The React useState cells are collected into one record; each handler of
the component becomes a function on that record.  DOM side effects
(scrolling, alert, the file-input reset, console logging) and the
conversation-list refresh are outside the state the claims speak about
and are not modelled. -/

/-- A conversation as held in currentConversation. -/
structure Conv where
  id : String
  title : JVal
  messages : List JVal

/-- The useState cells of the App component that the claims concern. -/
structure AppState where
  currentConversation : Option Conv
  messages : List JVal
  input : String
  loading : Bool
  stage1Results : Option JVal
  stage2Results : Option JVal
  stage3Result : Option JVal
  metadata : Option JVal
  activeTab : Nat
  currentStage : Option Nat
  pdfData : Option String
  pdfFilename : Option String

/-- The state right after mounting. -/
def initialAppState : AppState :=
  { currentConversation := none, messages := [], input := "",
    loading := false, stage1Results := none, stage2Results := none,
    stage3Result := none, metadata := none, activeTab := 0,
    currentStage := none, pdfData := none, pdfFilename := none }

/-- resetCouncilState, App.jsx lines 66-73. -/
def resetCouncilState (s : AppState) : AppState :=
  { s with stage1Results := none, stage2Results := none,
           stage3Result := none, metadata := none,
           currentStage := none, activeTab := 0 }

/-- clearPdfState, App.jsx lines 75-81 (the file-input DOM reset is not
part of the modelled state). -/
def clearPdfState (s : AppState) : AppState :=
  { s with pdfData := none, pdfFilename := none }

/-- selectConversation, App.jsx lines 54-64: load the full conversation,
show its messages, reset the council panels and drop the staged PDF. -/
def selectConversation (s : AppState) (conv : Conv) : AppState :=
  clearPdfState (resetCouncilState
    { s with currentConversation := some conv, messages := conv.messages })

/-- createNewConversation, App.jsx lines 41-52 (the sidebar list prepend
is outside the modelled state). -/
def createNewConversation (s : AppState) (conv : Conv) : AppState :=
  clearPdfState (resetCouncilState
    { s with currentConversation := some conv, messages := [] })

/-- The success path of handlePdfUpload, App.jsx lines 92-96: staging a
PDF overwrites both cells. -/
def handlePdfUpload (s : AppState) (base64 filename : String) : AppState :=
  { s with pdfData := some base64, pdfFilename := some filename }

/-- JavaScript String.prototype.trim on the characters the inputs use. -/
def jsTrim (s : String) : String :=
  ⟨((s.data.dropWhile isWsChar).reverse.dropWhile isWsChar).reverse⟩

/-- The guard of sendMessage, App.jsx line 109. -/
def sendMessageGuard (s : AppState) : Bool :=
  !(jsTrim s.input).data.isEmpty && s.currentConversation.isSome && !s.loading

/-- The user message appended to the transcript, with the attachment note
in the displayed content, App.jsx lines 111-116. -/
def userMessageOf (s : AppState) : JVal :=
  .obj [("role", .str "user"),
        ("content", .str (match s.pdfFilename with
          | some f => jsTrim s.input ++ "\n\n📄 Attached: " ++ f
          | none => jsTrim s.input))]

/-- sendMessage up to the first await, App.jsx lines 108-128: append the
user message, clear the input, set loading, reset the council panels,
drop the staged PDF and enter stage 1.  When the guard fails the state is
untouched. -/
def sendMessageStart (s : AppState) : AppState :=
  if sendMessageGuard s then
    { clearPdfState (resetCouncilState
        { s with messages := s.messages ++ [userMessageOf s],
                 input := "", loading := true })
      with currentStage := some 1 }
  else s

/-- The four stream callbacks of App.jsx lines 132-148, applied to
whatever state is current when the event arrives.  The title callback
closes over the conversation captured when the send started. -/
def applyStreamEvent (captured : Conv) (s : AppState) :
    StreamEvent → AppState
  | .stage1 d => { s with stage1Results := some d, currentStage := some 2 }
  | .stage2 d m =>
    { s with stage2Results := some d, metadata := some m,
             currentStage := some 3 }
  | .stage3 d => { s with stage3Result := some d, currentStage := none }
  | .titleUpdate t =>
    { s with currentConversation := some { captured with title := t } }

/-- The catch/finally of sendMessage, App.jsx lines 152-157: an alert is
shown and loading is cleared; nothing is appended to the transcript. -/
def handleSendError (s : AppState) : AppState :=
  { s with loading := false }

/-- A stream carrying an error frame with the message "rate limited". -/
def c4Frame : String :=
  "data: \x7b\"type\":\"error\",\"message\":\"rate limited\"\x7d\n"

/-- A malformed frame followed by a well-formed stage-3 frame. -/
def c5Stream : String :=
  "data: \x7bnotjson\ndata: \x7b\"type\":\"stage3_complete\",\"data\":\"ok\"\x7d\n"

/-- A stage-1 frame, then the sentinel, then a buffered stage-3 frame
that must never be dispatched. -/
def c6Stream : String :=
  "data: \x7b\"type\":\"stage1_complete\",\"data\":7\x7d\ndata: [DONE]\ndata: \x7b\"type\":\"stage3_complete\",\"data\":\"late\"\x7d\n"

/-- A stream whose error frame carries a message containing "JSON",
followed by a stage-1 frame. -/
def c4CtrStream : String :=
  "data: \x7b\"type\":\"error\",\"message\":\"invalid JSON in request\"\x7d\ndata: \x7b\"type\":\"stage1_complete\",\"data\":1\x7d\n"

/-! ### Claim C2: stage monotonicity -/

def convA : Conv := ⟨"conv-a", .str "A", []⟩

def convB : Conv := ⟨"conv-b", .str "B", []⟩

/-- A state in which a turn has just been sent from conversation A. -/
def c2SendState : AppState :=
  sendMessageStart
    { (selectConversation initialAppState convA) with input := "question" }

def c2AfterFirst : AppState :=
  applyStreamEvent convA c2SendState (.stage1 (.str "first"))

def c2AfterSecond : AppState :=
  applyStreamEvent convA c2AfterFirst (.stage1 (.str "second"))

/-- The protocol-ordered stage events of one turn. -/
def canonicalTurn (a b m c : JVal) : List StreamEvent :=
  [.stage1 a, .stage2 b m, .stage3 c]

/-- The currentStage cell after each successive applied event; the model
counterpart of the Awaiting2 → Awaiting3 → Settled walk (App.jsx encodes
Awaiting-k as currentStage = k and Settled as null). -/
def stageTrace (captured : Conv) (s : AppState) :
    List StreamEvent → List (Option Nat)
  | [] => []
  | e :: rest =>
    (applyStreamEvent captured s e).currentStage ::
      stageTrace captured (applyStreamEvent captured s e) rest

/-! ### Claim C3: staleness isolation -/

/-- Turn A has been sent from conversation A; its stream is in flight. -/
def c3TurnAState : AppState :=
  sendMessageStart
    { (selectConversation initialAppState convA) with input := "question A" }

/-- The user switches to conversation B while the stream of A is active
(selectConversation is not blocked by the loading flag). -/
def c3AfterSwitch : AppState := selectConversation c3TurnAState convB

/-- A late stage-3 event of turn A arriving after the switch: the
callbacks hold no stream token and apply it to the current state. -/
def c3AfterStale : AppState :=
  applyStreamEvent convA c3AfterSwitch (.stage3 (.str "final answer of A"))

/-- A state with a staged attachment and a sendable input. -/
def c9State : AppState :=
  { (selectConversation initialAppState convA) with
    input := "hello", pdfData := some "QkFTRTY0", pdfFilename := some "doc.pdf" }

/-! ### The session: api.login / api.register and auth.jsx

src/unnamed/part_001 lines 31-86 and src/frontend/src/auth.jsx.  The
outcome of the fetch is an explicit value; localStorage, the module-level
authToken of the api object and the user cell of the provider form the
session state. -/

/-- How the credential fetch can end: an ok response with a JSON body, a
non-ok response (whose body may or may not parse as JSON — response.json()
throws on a non-JSON body), or a rejected fetch carrying the message of
the thrown error (a browser reports a network failure as a TypeError with
a message such as "Failed to fetch"). -/
inductive FetchOutcome where
  | success : JVal → FetchOutcome
  | httpError : Nat → String → Option JVal → FetchOutcome
  | networkError : String → FetchOutcome

def API_BASE : String := "http://localhost:8001"

/-- The replacement message thrown by the catch clause. -/
def cannotConnectMsg : String :=
  "Cannot connect to server. Please check if the backend is running at "
    ++ API_BASE

/-- The errorMessage built for a non-ok response: the detail field when
the body is JSON and the field is truthy, the generic fallback when the
body is JSON without a truthy detail, and "Server error: status
statusText" when the body does not parse. -/
def httpErrorMessage (fallback : String) (status : Nat)
    (statusText : String) : Option JVal → String
  | some body =>
    match getField body "detail" with
    | some d => if truthy d then jsToString d else fallback
    | none => fallback
  | none => "Server error: " ++ toString status ++ " " ++ statusText

/-- The catch clause of api.login / api.register: rethrow the caught
error unchanged when its message is non-empty and does not contain
"Server error"; otherwise throw the cannot-connect error. -/
def loginCatch (m : String) : String :=
  if !m.data.isEmpty && !containsSub "Server error".data m.data then m
  else cannotConnectMsg

/-- api.login, part_001 lines 61-86. -/
def apiLogin : FetchOutcome → Except String JVal
  | .success body => .ok body
  | .httpError st sx body =>
    .error (loginCatch (httpErrorMessage "Failed to login" st sx body))
  | .networkError m => .error (loginCatch m)

/-- api.register, part_001 lines 31-56: identical shape, different
fallback message. -/
def apiRegister : FetchOutcome → Except String JVal
  | .success body => .ok body
  | .httpError st sx body =>
    .error (loginCatch (httpErrorMessage "Failed to register" st sx body))
  | .networkError m => .error (loginCatch m)

/-- The persisted token, the in-memory token of the api object, the user
cell and the loading flag of the provider. -/
structure SessionState where
  storedToken : Option String
  apiToken : Option String
  user : Option JVal
  loading : Bool

/-- login of auth.jsx lines 37-47: on success persist the returned token,
hand it to the api object and set the user; on failure rethrow without
touching anything. -/
def authLogin (s : SessionState) (o : FetchOutcome) :
    SessionState × Except String JVal :=
  match apiLogin o with
  | .ok resp =>
    ({ s with
        storedToken := some (jsToString (jfield resp "access_token")),
        apiToken := some (jsToString (jfield resp "access_token")),
        user := getField resp "user" },
     .ok resp)
  | .error m => (s, .error m)

/-- register of auth.jsx lines 49-59: same shape as login. -/
def authRegister (s : SessionState) (o : FetchOutcome) :
    SessionState × Except String JVal :=
  match apiRegister o with
  | .ok resp =>
    ({ s with
        storedToken := some (jsToString (jfield resp "access_token")),
        apiToken := some (jsToString (jfield resp "access_token")),
        user := getField resp "user" },
     .ok resp)
  | .error m => (s, .error m)

/-! ### Claim C7: login/register failure atomicity -/

/-- A logged-out session about to attempt a login. -/
def c7State : SessionState :=
  { storedToken := none, apiToken := none, user := none, loading := false }

/-- A non-ok response whose JSON body carries no detail field. -/
def c7CtrOutcome : FetchOutcome :=
  .httpError 401 "Unauthorized" (some (.obj [("error", .str "bad credentials")]))

def isFetchFailure : FetchOutcome → Bool
  | .success _ => false
  | .httpError _ _ _ => true
  | .networkError _ => true

/-! ### Claim C8: session restore -/

/-- How the who-am-I verification of a persisted token can end. -/
inductive VerifyOutcome where
  | valid : JVal → VerifyOutcome
  | invalid : VerifyOutcome

/-- The mount effect of AuthProvider, auth.jsx lines 14-35: with no
persisted token, only loading completes; with one, the token is handed to
the api object and verified — on success the user is set, on failure the
token is removed from storage and cleared from the api object, the user
stays unset and no error escapes (the model is a total function: the
catch swallows the rejection). -/
def restoreSession (stored : Option String)
    (verify : VerifyOutcome) : SessionState :=
  match stored with
  | none =>
    { storedToken := none, apiToken := none, user := none, loading := false }
  | some t =>
    match verify with
    | .valid u =>
      { storedToken := some t, apiToken := some t, user := some u,
        loading := false }
    | .invalid =>
      { storedToken := none, apiToken := none, user := none,
        loading := false }

/-! ### Claim C10: getAssistantResponseText -/

/-- Keep an optional value only when it is truthy: the `if (x) return x`
pattern of the source. -/
def truthyOrNone : Option JVal → Option JVal
  | some v => if truthy v then some v else none
  | none => none

/-- getAssistantResponseText, part_001 lines 446-465.  The function
returns the selected value verbatim, so its codomain is a JS value: the
code can hand back a non-string when a response field holds one. -/
def getAssistantResponseText (content : JVal) : JVal :=
  if truthy content = false then .str "No response"
  else
    match content with
    | .str s => .str s
    | _ =>
      match truthyOrNone ((getField content "stage3").bind
          (fun w => getField w "response")) with
      | some v => v
      | none =>
        match truthyOrNone (getField content "response") with
        | some v => v
        | none =>
          match content with
          | .arr xs =>
            match truthyOrNone (xs.getLast?.bind
                (fun li => getField li "response")) with
            | some v => v
            | none => .str "Response format not recognized"
          | _ => .str "Response format not recognized"

/-- The amended C10 characterization, written from the amended claim, by
cases on the shape of the content: falsy content — null or undefined, the
empty string, zero, false — yields "No response"; a non-empty string is
returned unchanged; an object with a truthy stage3.response yields that
value, else its truthy response field, else the not-recognized text; a
(non-empty) array yields the truthy response of its last element when
there is one and the not-recognized text otherwise; truthy numbers and
true yield the not-recognized text. -/
def assistantTextSpec : JVal → JVal
  | .null => .str "No response"
  | .bool b => if b then .str "Response format not recognized" else .str "No response"
  | .num n => if n = 0 then .str "No response" else .str "Response format not recognized"
  | .str s => if s = "" then .str "No response" else .str s
  | .arr xs =>
    match xs.getLast? with
    | some li =>
      match getField li "response" with
      | some v =>
        if truthy v then v else .str "Response format not recognized"
      | none => .str "Response format not recognized"
    | none => .str "Response format not recognized"
  | .obj fs =>
    match lookupLast fs "stage3" with
    | some s3 =>
      match getField s3 "response" with
      | some v =>
        if truthy v then v
        else
          match truthyOrNone (lookupLast fs "response") with
          | some w => w
          | none => .str "Response format not recognized"
      | none =>
        match truthyOrNone (lookupLast fs "response") with
        | some w => w
        | none => .str "Response format not recognized"
    | none =>
      match truthyOrNone (lookupLast fs "response") with
      | some w => w
      | none => .str "Response format not recognized"

/-! ## Theorems -/

/-- Processing a concatenated line list equals processing the two parts in
sequence with short-circuiting. -/
theorem runLines_append (l1 l2 : List (List Char)) :
    runLines (l1 ++ l2) =
      match (runLines l1).2 with
      | some o => ((runLines l1).1, some o)
      | none => ((runLines l1).1 ++ (runLines l2).1, (runLines l2).2) := by
  induction l1 with
  | nil => simp [runLines]
  | cons l rest ih =>
    cases h : stepOfLine l with
    | events es =>
      cases h1 : (runLines rest).2 with
      | none =>
        have ih' : runLines (rest ++ l2) =
            ((runLines rest).1 ++ (runLines l2).1, (runLines l2).2) := by
          rw [ih, h1]
        simp [runLines, h, h1, ih', List.append_assoc]
      | some o' =>
        have ih' : runLines (rest ++ l2) = ((runLines rest).1, some o') := by
          rw [ih, h1]
        simp [runLines, h, h1, ih']
    | done => simp [runLines, h]
    | fail m => simp [runLines, h]

/-- Because no state is carried between reads, the whole loop equals
processing the concatenation of the per-chunk line lists. -/
theorem consumeChunks_eq_runLines (chunks : List String) :
    consumeChunks chunks =
      ((runLines (allLines chunks)).1,
       ((runLines (allLines chunks)).2).getD .ok) := by
  induction chunks with
  | nil => rfl
  | cons c rest ih =>
    cases h : (runLines (splitOnNl c.data)).2 with
    | none =>
      have hap : runLines (allLines (c :: rest)) =
          ((runLines (splitOnNl c.data)).1 ++ (runLines (allLines rest)).1,
           (runLines (allLines rest)).2) := by
        rw [allLines, runLines_append, h]
      simp [consumeChunks, h, ih, hap]
    | some o' =>
      have hap : runLines (allLines (c :: rest)) =
          ((runLines (splitOnNl c.data)).1, some o') := by
        rw [allLines, runLines_append, h]
      simp [consumeChunks, h, hap]

/-- Claim C1: chunk-boundary invariance fails on the code.  The same byte
stream — one complete stage-1 frame — delivered whole invokes onStage1
once, but delivered in two chunks cut inside the frame invokes no callback
at all: the first fragment fails to parse as JSON and is skipped, and the
second fragment does not start with "data: " and is ignored, because the
consumer keeps no carry-over buffer between reads.  This refutes the
claimed invariance and the claimed carry-over of the trailing incomplete
line fragment. -/
theorem C1_split_frame_dropped :
    c1WholeFrame = c1FirstChunk ++ c1SecondChunk ∧
    consumeChunks [c1WholeFrame] =
      ([.stage1 (.arr [.obj [("model", .str "m1"), ("response", .str "hi")]])],
       .ok) ∧
    consumeChunks [c1FirstChunk, c1SecondChunk] = ([], .ok) :=
  ⟨rfl, rfl, rfl⟩

/-! ### Claims C4, C5, C6: error frames, malformed frames, the sentinel -/

theorem data_isEmpty_false_of_ne (d : String) (h : d ≠ "") :
    d.data.isEmpty = false := by
  cases d with
  | mk l =>
    cases l with
    | nil => exact absurd rfl h
    | cons c cs => rfl

theorem isPrefixChars_append (xs ys zs : List Char)
    (h : isPrefixChars xs ys = true) : isPrefixChars xs (ys ++ zs) = true := by
  simp only [isPrefixChars, beq_iff_eq] at h ⊢
  have hlen : xs.length ≤ ys.length := by
    have := congrArg List.length h
    simp only [List.length_take] at this
    omega
  rw [List.take_append_of_le_length hlen]
  exact h

theorem containsSub_of_prefixChars (ns hay : List Char)
    (h : isPrefixChars ns hay = true) : containsSub ns hay = true := by
  cases hay with
  | nil =>
    simp only [isPrefixChars, List.take_nil, beq_iff_eq] at h
    subst h
    rfl
  | cons c rest => simp [containsSub, h]

/-- Claim C5: a marker line whose payload fails to parse as JSON is
skipped.  The SyntaxError message of JSON.parse contains "JSON", so the
catch clause logs it and continues: no callback fires for the line, no
error reaches the caller from it, and everything after the line is
processed exactly as it would have been on its own. -/
theorem C5_malformed_frame_skipped (chunks : List String)
    (pre post : List (List Char)) (l d : List Char)
    (es : List StreamEvent)
    (hsplit : allLines chunks = pre ++ l :: post)
    (hdata : dataOf l = some d)
    (hnd : d ≠ "[DONE]".data)
    (hparse : jsonParseChars d = none)
    (hpre : runLines pre = (es, none)) :
    consumeChunks chunks =
      (es ++ (runLines post).1, ((runLines post).2).getD .ok) := by
  have hno : rethrows jsonSyntaxErrorMsg = false := by decide
  have hstep : stepOfLine l = .events [] := by
    simp [stepOfLine, hdata, hnd, tryLine, hparse, hno]
  have hpre1 : (runLines pre).1 = es := by rw [hpre]
  have hpre2 : (runLines pre).2 = none := by rw [hpre]
  have h1 : runLines (l :: post) = ((runLines post).1, (runLines post).2) := by
    simp [runLines, hstep]
  rw [consumeChunks_eq_runLines, hsplit, runLines_append, hpre2]
  simp [hpre1, h1]

/-- Claim C4, amended.  A frame whose payload is typed "error" makes the
consumer stop and raise an error carrying the server-supplied message —
PROVIDED the message (after String conversion) is non-empty and does not
contain the substring "JSON".  The catch clause distinguishes the
deliberately thrown protocol error from a JSON.parse failure only by
searching the message for "JSON", so a server message containing "JSON"
is misclassified as a parse failure and swallowed (see the
counterexample).  No assistant message is appended to the transcript in
the error path. -/
theorem C4_error_frame_raises (chunks : List String)
    (pre post : List (List Char)) (l d : List Char) (p : JVal) (m : String)
    (es : List StreamEvent)
    (hsplit : allLines chunks = pre ++ l :: post)
    (hdata : dataOf l = some d)
    (hnd : d ≠ "[DONE]".data)
    (hparse : jsonParseChars d = some p)
    (htype : typeTag p = some "error")
    (hmsg : errMsgOf p = m)
    (hm1 : m ≠ "")
    (hm2 : containsSub "JSON".data m.data = false)
    (hpre : runLines pre = (es, none)) :
    consumeChunks chunks = (es, .err m) ∧
    ∀ s : AppState, (handleSendError s).messages = s.messages := by
  have hre : rethrows m = true := by
    simp [rethrows, data_isEmpty_false_of_ne m hm1, hm2]
  have hstep : stepOfLine l = .fail m := by
    simp [stepOfLine, hdata, hnd, tryLine, hparse, htype, hmsg, hre]
  have hpre1 : (runLines pre).1 = es := by rw [hpre]
  have hpre2 : (runLines pre).2 = none := by rw [hpre]
  have h1 : runLines (l :: post) = ([], some (.err m)) := by
    simp [runLines, hstep]
  constructor
  · rw [consumeChunks_eq_runLines, hsplit, runLines_append, hpre2]
    simp [hpre1, h1]
  · intro s; rfl

/-- Claim C6: the sentinel payload, and a frame typed "complete", both
return from the consumer: the outcome is success and nothing after the
line — in the same chunk or in later chunks — produces a callback. -/
theorem C6_sentinel_ends_stream (chunks : List String)
    (pre post : List (List Char)) (l d : List Char)
    (es : List StreamEvent)
    (hsplit : allLines chunks = pre ++ l :: post)
    (hdata : dataOf l = some d)
    (hstop : d = "[DONE]".data ∨
      ∃ p, jsonParseChars d = some p ∧ typeTag p = some "complete")
    (hpre : runLines pre = (es, none)) :
    consumeChunks chunks = (es, .ok) := by
  have hstep : stepOfLine l = .done := by
    rcases hstop with h | ⟨p, hp, ht⟩
    · simp [stepOfLine, hdata, h]
    · by_cases hd : d = "[DONE]".data
      · simp [stepOfLine, hdata, hd]
      · simp [stepOfLine, hdata, hd, tryLine, hp, ht]
  have hpre1 : (runLines pre).1 = es := by rw [hpre]
  have hpre2 : (runLines pre).2 = none := by rw [hpre]
  have h1 : runLines (l :: post) = ([], some .ok) := by
    simp [runLines, hstep]
  rw [consumeChunks_eq_runLines, hsplit, runLines_append, hpre2]
  simp [hpre1, h1]

/-- Witness for C4: the error frame raises "rate limited" to the caller
and the transcript is untouched. -/
theorem C4_error_frame_raises_witness :
    consumeChunks [c4Frame] = ([], .err "rate limited") ∧
    (handleSendError initialAppState).messages = initialAppState.messages := by
  have h := C4_error_frame_raises [c4Frame] []
    [[]]
    "data: \x7b\"type\":\"error\",\"message\":\"rate limited\"\x7d".data
    "\x7b\"type\":\"error\",\"message\":\"rate limited\"\x7d".data
    (.obj [("type", .str "error"), ("message", .str "rate limited")])
    "rate limited" [] rfl rfl (by decide) rfl rfl rfl (by decide) (by decide)
    rfl
  exact ⟨h.1, h.2 initialAppState⟩

/-- Witness for C5: the malformed line produces nothing and the following
frame is still dispatched. -/
theorem C5_malformed_frame_skipped_witness :
    consumeChunks [c5Stream] = ([.stage3 (.str "ok")], .ok) := by
  have h := C5_malformed_frame_skipped [c5Stream] []
    ["data: \x7b\"type\":\"stage3_complete\",\"data\":\"ok\"\x7d".data, []]
    "data: \x7bnotjson".data
    "\x7bnotjson".data
    [] rfl rfl (by decide) rfl rfl
  exact h

/-- Witness for C6: the sentinel ends the stream successfully; the frame
already buffered after it is ignored. -/
theorem C6_sentinel_ends_stream_witness :
    consumeChunks [c6Stream] = ([.stage1 (.num 7)], .ok) := by
  have h := C6_sentinel_ends_stream [c6Stream]
    ["data: \x7b\"type\":\"stage1_complete\",\"data\":7\x7d".data]
    ["data: \x7b\"type\":\"stage3_complete\",\"data\":\"late\"\x7d".data, []]
    "data: [DONE]".data
    "[DONE]".data
    [.stage1 (.num 7)] rfl rfl (Or.inl rfl) rfl
  exact h

/-- Claim C4 as stated ("regardless of the content of that message") is
false: the thrown protocol error with message "invalid JSON in request"
is caught by the same clause that swallows parse failures, because the
clause recognizes parse failures only by the substring "JSON".  The
stream does not stop and no error reaches the caller; the next frame is
dispatched as if nothing happened. -/
theorem C4_counterexample :
    consumeChunks [c4CtrStream] = ([.stage1 (.num 1)], .ok) := rfl

/-- Claim C2 as stated is false: a stage-1 event arriving a second time —
a stage already passed — is NOT ignored; it overwrites the stored stage-1
results and rewinds currentStage to 2.  The callbacks of App.jsx apply
every event unconditionally. -/
theorem C2_counterexample :
    c2AfterFirst.stage1Results = some (.str "first") ∧
    c2AfterFirst.currentStage = some 2 ∧
    c2AfterSecond.stage1Results = some (.str "second") ∧
    c2AfterSecond.currentStage = some 2 ∧
    c2AfterSecond.stage1Results ≠ c2AfterFirst.stage1Results := by
  refine ⟨rfl, rfl, rfl, rfl, fun h => ?_⟩
  have h2 : (some (JVal.str "second") : Option JVal) = some (JVal.str "first") := h
  exact absurd (JVal.str.inj (Option.some.inj h2)) (by decide)

/-- Claim C2, amended.  Stage events are applied unconditionally in
arrival order, so the guarantee that holds is conditional on the server
sending the stages in protocol order: whenever the applied events form a
(possibly incomplete) prefix of stage1 → stage2 → stage3, the machine
walks a prefix of Awaiting2 → Awaiting3 → Settled with no stage applied
twice or out of order, and a complete turn stores each of the four
artifacts.  Duplicate or out-of-order events are NOT ignored (see the
counterexample): they overwrite state in arrival order. -/
theorem C2_in_order_turn_walks_chain (captured : Conv) (s : AppState)
    (a b m c : JVal) (evs : List StreamEvent)
    (hpre : ∃ t, evs ++ t = canonicalTurn a b m c) :
    stageTrace captured s evs = [some 2, some 3, none].take evs.length ∧
    (evs = canonicalTurn a b m c →
      (evs.foldl (applyStreamEvent captured) s).stage1Results = some a ∧
      (evs.foldl (applyStreamEvent captured) s).stage2Results = some b ∧
      (evs.foldl (applyStreamEvent captured) s).metadata = some m ∧
      (evs.foldl (applyStreamEvent captured) s).stage3Result = some c) := by
  obtain ⟨t, ht⟩ := hpre
  rcases evs with _ | ⟨e1, _ | ⟨e2, _ | ⟨e3, rest⟩⟩⟩
  · exact ⟨rfl, fun h => by simp [canonicalTurn] at h⟩
  · simp only [canonicalTurn, List.cons_append, List.nil_append,
      List.cons.injEq] at ht
    obtain ⟨rfl, -⟩ := ht
    exact ⟨rfl, fun h => by simp [canonicalTurn] at h⟩
  · simp only [canonicalTurn, List.cons_append, List.nil_append,
      List.cons.injEq] at ht
    obtain ⟨rfl, rfl, -⟩ := ht
    exact ⟨rfl, fun h => by simp [canonicalTurn] at h⟩
  · simp only [canonicalTurn, List.cons_append, List.nil_append,
      List.cons.injEq, List.append_eq_nil] at ht
    obtain ⟨rfl, rfl, rfl, rfl, -⟩ := ht
    exact ⟨rfl, fun _ => ⟨rfl, rfl, rfl, rfl⟩⟩

/-- Witness for the amended C2 theorem: a concrete full in-order turn. -/
theorem C2_in_order_turn_walks_chain_witness :
    stageTrace convA c2SendState
        (canonicalTurn (.str "a") (.str "b") (.str "m") (.str "c")) =
      [some 2, some 3, none] ∧
    ((canonicalTurn (.str "a") (.str "b") (.str "m") (.str "c")).foldl
        (applyStreamEvent convA) c2SendState).stage3Result =
      some (.str "c") := by
  have h := C2_in_order_turn_walks_chain convA c2SendState
    (.str "a") (.str "b") (.str "m") (.str "c")
    (canonicalTurn (.str "a") (.str "b") (.str "m") (.str "c"))
    ⟨[], List.append_nil _⟩
  exact ⟨h.1, (h.2 rfl).2.2.2⟩

/-- Claim C3 is false on the code: there is no stream token at all, so an
event of turn A arriving after conversation B was selected is applied to
the stage state and shown under B — the switch had cleared stage3Result
to none, and the stale event sets it. -/
theorem C3_stale_event_applied :
    c3TurnAState.loading = true ∧
    c3AfterSwitch.currentConversation = some convB ∧
    c3AfterSwitch.stage3Result = none ∧
    c3AfterStale.currentConversation = some convB ∧
    c3AfterStale.stage3Result = some (.str "final answer of A") :=
  ⟨rfl, rfl, rfl, rfl, rfl⟩

/-! ### Claim C9: attachment lifecycle -/

/-- Claim C9: a single pdfData/pdfFilename pair holds at most one staged
attachment; staging replaces both cells; selecting a conversation,
creating one, and a send that passes the guard (hence any successful
send) clear both cells. -/
theorem C9_attachment_lifecycle (s : AppState) (conv : Conv)
    (b f : String) :
    ((handlePdfUpload s b f).pdfData = some b ∧
     (handlePdfUpload s b f).pdfFilename = some f) ∧
    ((selectConversation s conv).pdfData = none ∧
     (selectConversation s conv).pdfFilename = none) ∧
    ((createNewConversation s conv).pdfData = none ∧
     (createNewConversation s conv).pdfFilename = none) ∧
    (sendMessageGuard s = true →
      (sendMessageStart s).pdfData = none ∧
      (sendMessageStart s).pdfFilename = none) := by
  refine ⟨⟨rfl, rfl⟩, ⟨rfl, rfl⟩, ⟨rfl, rfl⟩, fun h => ?_⟩
  simp [sendMessageStart, h, clearPdfState, resetCouncilState]

/-- Witness for C9 at a concrete state whose guard passes. -/
theorem C9_attachment_lifecycle_witness :
    (handlePdfUpload c9State "QUJD" "new.pdf").pdfFilename = some "new.pdf" ∧
    (selectConversation c9State convB).pdfData = none ∧
    (sendMessageStart c9State).pdfData = none ∧
    (sendMessageStart c9State).pdfFilename = none := by
  have h := C9_attachment_lifecycle c9State convB "QUJD" "new.pdf"
  exact ⟨h.1.2, h.2.1.1, (h.2.2.2 (by decide)).1, (h.2.2.2 (by decide)).2⟩

/-- Claim C7 as stated is false: when the error body is JSON without a
detail field, the raised message is the generic "Failed to login", which
is neither a server-provided detail (the body has none) nor the
cannot-connect message. -/
theorem C7_counterexample :
    authLogin c7State c7CtrOutcome = (c7State, .error "Failed to login") ∧
    getField (.obj [("error", .str "bad credentials")]) "detail" = none ∧
    "Failed to login" ≠ cannotConnectMsg := by
  exact ⟨rfl, rfl, by decide⟩

/-- Claim C7, amended.  Every login/register failure raises an error and
leaves the whole session untouched.  The message raised is: the
server-provided detail when the body supplies a truthy one (not
containing "Server error"); the cannot-connect message when the body is
not JSON; the fetch error message itself on a network failure; and a
generic fallback — neither of the two shapes the claim lists — when the
body is JSON without a detail. -/
theorem C7_failure_atomicity :
    (∀ (s : SessionState) (o : FetchOutcome), isFetchFailure o = true →
      (authLogin s o).1 = s ∧ (∃ m, (authLogin s o).2 = .error m) ∧
      (authRegister s o).1 = s ∧ (∃ m, (authRegister s o).2 = .error m)) ∧
    (∀ (s : SessionState) (st : Nat) (sx : String) (body : JVal)
        (d : String), getField body "detail" = some (.str d) → d ≠ "" →
      containsSub "Server error".data d.data = false →
      (authLogin s (.httpError st sx (some body))).2 = .error d) ∧
    (∀ (s : SessionState) (st : Nat) (sx : String),
      (authLogin s (.httpError st sx none)).2 = .error cannotConnectMsg) ∧
    (∀ (s : SessionState) (m : String), m ≠ "" →
      containsSub "Server error".data m.data = false →
      (authLogin s (.networkError m)).2 = .error m) := by
  refine ⟨?_, ?_, ?_, ?_⟩
  · intro s o ho
    cases o with
    | success body => simp [isFetchFailure] at ho
    | httpError st sx body =>
      exact ⟨rfl, ⟨_, rfl⟩, rfl, ⟨_, rfl⟩⟩
    | networkError m =>
      exact ⟨rfl, ⟨_, rfl⟩, rfl, ⟨_, rfl⟩⟩
  · intro s st sx body d hd hne hcs
    simp [authLogin, apiLogin, httpErrorMessage, hd, truthy, jsToString,
      loginCatch, data_isEmpty_false_of_ne d hne, hcs]
  · intro s st sx
    have hsv : isPrefixChars "Server error".data "Server error: ".data
        = true := by decide
    have hpref : isPrefixChars "Server error".data
        ("Server error: " ++ toString st ++ " " ++ sx).data = true := by
      have : ("Server error: " ++ toString st ++ " " ++ sx).data =
          "Server error: ".data ++ (toString st ++ " " ++ sx).data := by
        simp [String.data_append, List.append_assoc]
      rw [this]
      exact isPrefixChars_append _ _ _ hsv
    have hcs : containsSub "Server error".data
        ("Server error: " ++ toString st ++ " " ++ sx).data = true :=
      containsSub_of_prefixChars _ _ hpref
    simp [String.data_append] at hcs
    simp [authLogin, apiLogin, httpErrorMessage, loginCatch, hcs]
  · intro s m hne hcs
    simp [authLogin, apiLogin, loginCatch,
      data_isEmpty_false_of_ne m hne, hcs]

/-- Witness for C7 across the three failure shapes. -/
theorem C7_failure_atomicity_witness :
    (authLogin c7State (.networkError "Failed to fetch")).1 = c7State ∧
    (authLogin c7State (.httpError 401 "Unauthorized"
        (some (.obj [("detail", .str "Invalid username or password")])))).2 =
      .error "Invalid username or password" ∧
    (authLogin c7State (.httpError 500 "Internal Server Error" none)).2 =
      .error cannotConnectMsg ∧
    (authLogin c7State (.networkError "Failed to fetch")).2 =
      .error "Failed to fetch" := by
  have h := C7_failure_atomicity
  exact ⟨(h.1 c7State (.networkError "Failed to fetch") rfl).1,
    h.2.1 c7State 401 "Unauthorized"
      (.obj [("detail", .str "Invalid username or password")])
      "Invalid username or password" rfl (by decide) (by decide),
    h.2.2.1 c7State 500 "Internal Server Error",
    h.2.2.2 c7State "Failed to fetch" (by decide) (by decide)⟩

/-- Claim C8: restoring with an invalid or expired token resolves to the
empty session — persisted token removed, api token cleared, user unset,
loading complete, no error — and restoring with a valid token yields the
token-and-user session. -/
theorem C8_restore_session (t : String) (u : JVal) :
    restoreSession (some t) (.valid u) =
      { storedToken := some t, apiToken := some t, user := some u,
        loading := false } ∧
    restoreSession (some t) .invalid =
      { storedToken := none, apiToken := none, user := none,
        loading := false } ∧
    restoreSession none .invalid =
      { storedToken := none, apiToken := none, user := none,
        loading := false } :=
  ⟨rfl, rfl, rfl⟩

/-- Claim C10 as stated is false on two counts exercised by one input:
a string IS content, yet the empty string is not returned unchanged, and
although "" is neither null nor undefined it does not map to "Response
format not recognized" either — every falsy content maps to
"No response". -/
theorem C10_counterexample :
    getAssistantResponseText (.str "") = .str "No response" ∧
    JVal.str "No response" ≠ JVal.str "" :=
  ⟨rfl, fun h => absurd (JVal.str.inj h) (by decide)⟩

theorem truthy_arr (xs : List JVal) : truthy (.arr xs) = true := rfl

theorem truthy_obj (fs : List (String × JVal)) : truthy (.obj fs) = true := rfl

theorem getField_arr (xs : List JVal) (k : String) :
    getField (.arr xs) k = none := rfl

theorem getField_obj (fs : List (String × JVal)) (k : String) :
    getField (.obj fs) k = lookupLast fs k := rfl

/-- Claim C10, amended: getAssistantResponseText is total (the Lean model
is a total function, mirroring that no code path throws) and coincides
with the case analysis of `assistantTextSpec` on every content value. -/
theorem C10_total_characterization (content : JVal) :
    getAssistantResponseText content = assistantTextSpec content := by
  cases content with
  | null => rfl
  | bool b => cases b <;> rfl
  | num n =>
    rcases eq_or_ne n 0 with h | h
    · subst h; rfl
    · have ht : truthy (.num n) = true := by simp [truthy, h]
      simp [getAssistantResponseText, assistantTextSpec, ht, h,
        getField, truthyOrNone]
  | str s =>
    rcases eq_or_ne s "" with h | h
    · subst h; rfl
    · have ht : truthy (.str s) = true := by
        simp [truthy, data_isEmpty_false_of_ne s h]
      simp [getAssistantResponseText, assistantTextSpec, ht, h]
  | arr xs =>
    cases hl : xs.getLast? with
    | none =>
      simp [getAssistantResponseText, assistantTextSpec, truthy_arr,
        getField_arr, truthyOrNone, hl]
    | some li =>
      cases hr : getField li "response" with
      | none =>
        simp [getAssistantResponseText, assistantTextSpec, truthy_arr,
          getField_arr, truthyOrNone, hl, hr]
      | some v =>
        cases htv : truthy v with
        | false =>
          simp [getAssistantResponseText, assistantTextSpec, truthy_arr,
            getField_arr, truthyOrNone, hl, hr, htv]
        | true =>
          simp [getAssistantResponseText, assistantTextSpec, truthy_arr,
            getField_arr, truthyOrNone, hl, hr, htv]
  | obj fs =>
    cases h3 : lookupLast fs "stage3" with
    | none =>
      cases hresp : lookupLast fs "response" with
      | none =>
        simp [getAssistantResponseText, assistantTextSpec, truthy_obj,
          getField_obj, truthyOrNone, h3, hresp]
      | some w =>
        cases htw : truthy w with
        | false =>
          simp [getAssistantResponseText, assistantTextSpec, truthy_obj,
            getField_obj, truthyOrNone, h3, hresp, htw]
        | true =>
          simp [getAssistantResponseText, assistantTextSpec, truthy_obj,
            getField_obj, truthyOrNone, h3, hresp, htw]
    | some s3 =>
      cases hr : getField s3 "response" with
      | none =>
        simp [getAssistantResponseText, assistantTextSpec, truthy_obj,
          getField_obj, truthyOrNone, h3, hr]
      | some v =>
        cases htv : truthy v with
        | false =>
          simp [getAssistantResponseText, assistantTextSpec, truthy_obj,
            getField_obj, truthyOrNone, h3, hr, htv]
        | true =>
          simp [getAssistantResponseText, assistantTextSpec, truthy_obj,
            getField_obj, truthyOrNone, h3, hr, htv]
